import Mathlib

/-!
Verification of the PennyLane device execution/validation pipeline and the
Torch adapter layer constructor checks.

The Device class itself is not among the provided source files (only its unit
tests in tests/test_device.py are), so the device model below is modelled from
the specification, with the error-message templates pinned down by the tests.
The TorchLayer definitions are translated directly from pennylane/qnn/torch.py.
-/

set_option autoImplicit false

namespace PennyLane

/-- Modelled from the spec: the measurement return type carried by an
Observable (expectation, variance, or sample). The Device class source is not
in the provided files; this follows spec section 3 (data model). -/
inductive ReturnType where
  | expectation
  | variance
  | sample
deriving DecidableEq, Repr

/-- Modelled from the spec: a symbolic gate application, carrying a registry
name and target wires (spec section 3). Parameters are irrelevant to the
validation pipeline and are omitted. -/
structure Operation where
  name : String
  wires : List Nat
deriving DecidableEq, Repr

/-- Modelled from the spec: an Observable, an Operation-like entity with a
return type and, for sampling, an optional `numSamples` attribute whose
absence is a validation error (spec section 3). `none` models a sample
observable whose num_samples attribute is missing. -/
structure Observable where
  name : String
  wires : List Nat
  returnType : ReturnType
  numSamples : Option Nat
deriving DecidableEq, Repr

/-- Modelled from the spec: the error taxonomy of spec section 7:
ConstructionError, ContextError, CapabilityError, ObservableConfigError,
ArgumentTypeError, each carrying its message. -/
inductive DevError where
  | construction (msg : String)
  | context (msg : String)
  | capability (msg : String)
  | observableConfig (msg : String)
  | argumentType (msg : String)
deriving DecidableEq, Repr

/-- Modelled from the spec: a Device declares its capability sets
`operations` and `observables` (sets of registry names) and a backend
per-observable evaluation hook returning one numeric result (spec
sections 4.3 and 4.5). -/
structure Device where
  operations : List String
  observables : List String
  measure : Observable → Int

/-- Modelled from the spec: transient per-call device state. `opQueue` and
`obsQueue` are `some _` only inside an active execution context; `appliedOps`
records the operations the backend has applied (spec sections 3 and 4.5). -/
structure DeviceState where
  appliedOps : List Operation
  opQueue : Option (List Operation)
  obsQueue : Option (List Observable)

/-- Modelled from the spec: operation part of check_validity. Walks the queue
and raises CapabilityError "Gate {name} not supported" at the first operation
whose name is not in the capability set (spec sections 4.4 and 4.5; message
template pinned by tests/test_device.py test_check_validity). -/
def checkOps (d : Device) : List Operation → Except DevError Unit
  | [] => .ok ()
  | op :: rest =>
    if op.name ∈ d.operations then checkOps d rest
    else .error (.capability ("Gate " ++ op.name ++ " not supported"))

/-- Modelled from the spec: observable part of check_validity. Membership is
checked in the `observables` capability set only, independently of the
`operations` set (spec section 4.4; message template pinned by
tests/test_device.py test_check_validity). -/
def checkObs (d : Device) : List Observable → Except DevError Unit
  | [] => .ok ()
  | o :: rest =>
    if o.name ∈ d.observables then checkObs d rest
    else .error (.capability ("Observable " ++ o.name ++ " not supported"))

/-- Modelled from the spec: check_validity validates every operation against
`operations`, then every observable against `observables`; the first
violation raises (spec section 4.4). -/
def check_validity (d : Device) (queue : List Operation)
    (observables : List Observable) : Except DevError Unit :=
  match checkOps d queue with
  | .error e => .error e
  | .ok _ => checkObs d observables

/-- Modelled from the spec: per-observable resolution (spec section 4.5 step
4). For each observable in order: a sample observable without `numSamples`
raises ObservableConfigError "Number of samples not specified for
observable"; otherwise the backend evaluation hook contributes one numeric
result, preserving input order. -/
def resolveObservables (d : Device) : List Observable → Except DevError (List Int)
  | [] => .ok []
  | o :: rest =>
    if o.returnType = ReturnType.sample ∧ o.numSamples = none then
      .error (.observableConfig ("Number of samples not specified for observable " ++ o.name))
    else
      match resolveObservables d rest with
      | .error e => .error e
      | .ok rs => .ok (d.measure o :: rs)

/-- Modelled from the spec: the ContextError message for reading the
operation queue outside an execution context (exact wording pinned by
tests/test_device.py test_op_queue). -/
def opQueueMessage : String :=
  "Cannot access the operation queue outside of the execution context!"

/-- Modelled from the spec: the ContextError message for reading the
observable queue outside an execution context (exact wording pinned by
tests/test_device.py test_obs_queue). -/
def obsQueueMessage : String :=
  "Cannot access the observable value queue outside of the execution context!"

/-- Modelled from the spec: the op_queue read-only accessor; valid only
inside an active execution context, otherwise a ContextError (spec sections
3 and 4.2). -/
def op_queue (s : DeviceState) : Except DevError (List Operation) :=
  match s.opQueue with
  | none => .error (.context opQueueMessage)
  | some q => .ok q

/-- Modelled from the spec: the obs_queue read-only accessor; valid only
inside an active execution context, otherwise a ContextError (spec sections
3 and 4.2). -/
def obs_queue (s : DeviceState) : Except DevError (List Observable) :=
  match s.obsQueue with
  | none => .error (.context obsQueueMessage)
  | some q => .ok q

/-- Modelled from the spec: the execute state machine (spec section 4.5):
open the queuing context, run check_validity (on failure, propagate with the
context closed and nothing applied), apply the queued operations via the
backend hooks, resolve each observable in order, close the context
unconditionally, and aggregate one numeric result per observable into an
array (a list), in input order. -/
def execute (d : Device) (s : DeviceState) (queue : List Operation)
    (obs : List Observable) : Except DevError (List Int) × DeviceState :=
  match check_validity d queue obs with
  | .error e =>
    (.error e, { appliedOps := s.appliedOps, opQueue := none, obsQueue := none })
  | .ok _ =>
    match resolveObservables d obs with
    | .error e =>
      (.error e, { appliedOps := s.appliedOps ++ queue, opQueue := none, obsQueue := none })
    | .ok results =>
      (.ok results, { appliedOps := s.appliedOps ++ queue, opQueue := none, obsQueue := none })

/-- Modelled from the spec: a registered plugin backend: the device it
provides and the host-framework API version it declares compatibility with
(spec sections 4.5 error policy and 6). -/
structure Plugin where
  apiVersion : Nat
  dev : Device

/-- Modelled from the spec: name resolution in the external device registry. -/
def lookupPlugin : List (String × Plugin) → String → Option Plugin
  | [], _ => none
  | (n, p) :: rest, name => if n = name then some p else lookupPlugin rest name

/-- Modelled from the spec: the API-version ConstructionError message
(wording following tests/test_device.py test_outdated_API). -/
def apiVersionMessage (v : Nat) : String :=
  "The plugin requires PennyLane versions " ++ toString v

/-- Modelled from the spec: device construction (spec section 6). Unknown
names raise ConstructionError "Device does not exist"; a resolved backend
declaring compatibility with an older host-framework version than currently
running raises an API-version ConstructionError. Construction never touches
any queue. -/
def construct (registry : List (String × Plugin)) (hostVersion : Nat)
    (name : String) : Except DevError Device :=
  match lookupPlugin registry name with
  | none => .error (.construction "Device does not exist")
  | some p =>
    if p.apiVersion < hostVersion then
      .error (.construction (apiVersionMessage p.apiVersion))
    else .ok p.dev

/-- Modelled from the spec: the argument passed to supports_operation and
supports_observable: a name string, a known Operation class (whose
`isObservable` flag marks the Observable subclasses), or anything else
(spec section 4.3). -/
inductive CapabilityArg where
  | str (s : String)
  | cls (name : String) (isObservable : Bool)
  | other
deriving DecidableEq, Repr

/-- Modelled from the spec: the ArgumentTypeError message of
supports_operation (exact wording pinned by tests/test_device.py
test_supports_operation_exception). -/
def operationArgMessage : String :=
  "The given operation must either be a pennylane.Operation class or a string."

/-- Modelled from the spec: the ArgumentTypeError message of
supports_observable (exact wording pinned by tests/test_device.py
test_supports_observable_exception). -/
def observableArgMessage : String :=
  "The given operation must either be a pennylane.Observable class or a string."

/-- Modelled from the spec: supports_operation accepts a name string or any
known Operation class, resolves it to a name and returns membership in the
`operations` capability set; anything else is an ArgumentTypeError (spec
section 4.3). -/
def supports_operation (d : Device) : CapabilityArg → Except DevError Bool
  | .str s => .ok (decide (s ∈ d.operations))
  | .cls n _ => .ok (decide (n ∈ d.operations))
  | .other => .error (.argumentType operationArgMessage)

/-- Modelled from the spec: supports_observable accepts a name string or a
known Observable class (an Operation class that is not an Observable is
rejected), resolves it to a name and returns membership in the `observables`
capability set; anything else is an ArgumentTypeError (spec section 4.3). -/
def supports_observable (d : Device) : CapabilityArg → Except DevError Bool
  | .str s => .ok (decide (s ∈ d.observables))
  | .cls n true => .ok (decide (n ∈ d.observables))
  | .cls _ false => .error (.argumentType observableArgMessage)
  | .other => .error (.argumentType observableArgMessage)

end PennyLane

namespace TorchQnn

/-- The fixed input-argument name of TorchLayer: `TorchLayer._input_arg` is
the string "inputs" (pennylane/qnn/torch.py). -/
def inputArg : String := "inputs"

/-- The two Python exception classes raised by `TorchLayer.__init__`
signature validation (pennylane/qnn/torch.py). -/
inductive TorchError where
  | typeError (msg : String)
  | valueError (msg : String)
deriving DecidableEq, Repr

/-- The part of a qnode signature that `TorchLayer.__init__` inspects:
argument names (`self.sig` keys), the names whose parameter has a default,
and the variable-positional / variable-keyword flags (`qnode.func.var_pos`,
`qnode.func.var_keyword`). -/
structure QNodeSignature where
  argNames : List String
  argsWithDefault : List String
  varPos : Bool
  varKeyword : Bool
deriving DecidableEq, Repr

/-- Two name lists denote the same set. Embeds Python set equality
`set(a) == set(b)` between the key sets compared in torch.py line 50. -/
def sameNameSet (a b : List String) : Prop :=
  (∀ x ∈ a, x ∈ b) ∧ (∀ x ∈ b, x ∈ a)

instance sameNameSetDecidable (a b : List String) : Decidable (sameNameSet a b) := by
  unfold sameNameSet
  infer_instance

/-- Message of the TypeError raised when the signature lacks `inputs`
(torch.py lines 37-42, with the format argument substituted). -/
def missingInputsMessage : String :=
  "QNode must include an argument with name " ++ inputArg ++ " for inputting data"

/-- Message of the ValueError raised when `inputs` appears in weight_shapes
(torch.py lines 44-48). -/
def inputsInWeightShapesMessage : String :=
  inputArg ++ " argument should not have its dimension specified in weight_shapes"

/-- Message of the ValueError raised when the weight_shapes keys plus
`inputs` are not exactly the signature keys (torch.py lines 50-51). -/
def shapeMismatchMessage : String :=
  "Must specify a shape for every non-input parameter in the QNode"

/-- Message of the TypeError raised on variable positional arguments
(torch.py lines 53-54). -/
def varPosMessage : String :=
  "Cannot have a variable number of positional arguments"

/-- Message of the TypeError raised on variable keyword arguments
(torch.py lines 56-57). -/
def varKeywordMessage : String :=
  "Cannot have a variable number of keyword arguments"

/-- Message of the TypeError raised when an argument other than `inputs` has
a default (torch.py lines 72-75). -/
def defaultsMessage : String :=
  "Only the argument " ++ inputArg ++ " is permitted to have a default"

/-- The signature-validation sequence of `TorchLayer.__init__`
(pennylane/qnn/torch.py lines 31-75), in source order: missing `inputs`
(TypeError), `inputs` among the weight_shapes keys (ValueError), weight
shape keys plus `inputs` not exactly the signature keys (ValueError),
variable positional arguments (TypeError), variable keyword arguments
(TypeError), and finally a default on any argument other than `inputs`
(TypeError). Returns unit when the constructor accepts. -/
def torchLayerInitCheck (sig : QNodeSignature) (weightShapeKeys : List String) :
    Except TorchError Unit :=
  if inputArg ∉ sig.argNames then
    .error (.typeError missingInputsMessage)
  else if inputArg ∈ weightShapeKeys then
    .error (.valueError inputsInWeightShapesMessage)
  else if ¬ sameNameSet (inputArg :: weightShapeKeys) sig.argNames then
    .error (.valueError shapeMismatchMessage)
  else if sig.varPos then
    .error (.typeError varPosMessage)
  else if sig.varKeyword then
    .error (.typeError varKeywordMessage)
  else if ¬ (∀ x ∈ sig.argsWithDefault, x = inputArg) then
    .error (.typeError defaultsMessage)
  else .ok ()

/-- The names bound at module scope in pennylane/qnn/torch.py before line 25
executes: the imports of lines 16-23 (inspect, Iterable, Callable, torch,
Module, to_torch, functools). -/
def torchModuleBoundNames : List String :=
  ["inspect", "Iterable", "Callable", "torch", "Module", "to_torch", "functools"]

/-- The free (module-level) names referenced by the defining expression of
the module-level default initializer on line 25 of pennylane/qnn/torch.py,
`functools.partial(torch.nn.init.uniform_, b=2 * np.pi)`. -/
def uniformDefReferencedNames : List String :=
  ["functools", "torch", "np"]

end TorchQnn

namespace PennyLane

/-- If every queued operation is supported, the operation check passes. -/
theorem checkOps_ok (d : Device) (queue : List Operation)
    (h : ∀ op ∈ queue, op.name ∈ d.operations) : checkOps d queue = .ok () := by
  induction queue with
  | nil => rfl
  | cons op rest ih =>
    simp only [checkOps]
    rw [if_pos (h op (List.mem_cons_self op rest))]
    exact ih fun o ho => h o (List.mem_cons_of_mem _ ho)

/-- If some queued operation is unsupported, the operation check raises the
CapabilityError naming an unsupported gate of the queue. -/
theorem checkOps_err (d : Device) (queue : List Operation)
    (h : ∃ op ∈ queue, op.name ∉ d.operations) :
    ∃ g, g ∈ queue ∧ g.name ∉ d.operations ∧
      checkOps d queue = .error (.capability ("Gate " ++ g.name ++ " not supported")) := by
  induction queue with
  | nil => simp at h
  | cons op rest ih =>
    by_cases hm : op.name ∈ d.operations
    · have hrest : ∃ o ∈ rest, o.name ∉ d.operations := by
        rcases h with ⟨o, ho, hn⟩
        rcases List.mem_cons.mp ho with hh | hh
        · subst hh; exact absurd hm hn
        · exact ⟨o, hh, hn⟩
      rcases ih hrest with ⟨g, hg, hgn, he⟩
      refine ⟨g, List.mem_cons_of_mem _ hg, hgn, ?_⟩
      simp only [checkOps]
      rw [if_pos hm]
      exact he
    · refine ⟨op, List.mem_cons_self op rest, hm, ?_⟩
      simp only [checkOps]
      rw [if_neg hm]

/-- If no observable is a sample observable lacking its sample count, the
per-observable resolution succeeds with one backend result per observable,
in input order. -/
theorem resolveObservables_ok (d : Device) (obs : List Observable)
    (h : ∀ o ∈ obs, ¬(o.returnType = ReturnType.sample ∧ o.numSamples = none)) :
    resolveObservables d obs = .ok (obs.map d.measure) := by
  induction obs with
  | nil => rfl
  | cons o rest ih =>
    simp only [resolveObservables]
    rw [if_neg (h o (List.mem_cons_self o rest))]
    rw [ih fun x hx => h x (List.mem_cons_of_mem _ hx)]
    rfl

/-- If some observable is a sample observable lacking its sample count, the
per-observable resolution raises the ObservableConfigError naming such an
observable. -/
theorem resolveObservables_err (d : Device) (obs : List Observable)
    (h : ∃ o ∈ obs, o.returnType = ReturnType.sample ∧ o.numSamples = none) :
    ∃ o, o ∈ obs ∧ o.returnType = ReturnType.sample ∧ o.numSamples = none ∧
      resolveObservables d obs =
        .error (.observableConfig
          ("Number of samples not specified for observable " ++ o.name)) := by
  induction obs with
  | nil => simp at h
  | cons o rest ih =>
    by_cases hm : o.returnType = ReturnType.sample ∧ o.numSamples = none
    · refine ⟨o, List.mem_cons_self o rest, hm.1, hm.2, ?_⟩
      simp only [resolveObservables]
      rw [if_pos hm]
    · have hrest : ∃ x ∈ rest, x.returnType = ReturnType.sample ∧ x.numSamples = none := by
        rcases h with ⟨x, hx, hxp⟩
        rcases List.mem_cons.mp hx with hh | hh
        · subst hh; exact absurd hxp hm
        · exact ⟨x, hh, hxp⟩
      rcases ih hrest with ⟨x, hx, h1, h2, he⟩
      refine ⟨x, List.mem_cons_of_mem _ hx, h1, h2, ?_⟩
      simp only [resolveObservables]
      rw [if_neg hm, he]

end PennyLane

namespace PennyLane

/-- C1: for every device and every observable whose name is in the device
supported operations but not in its supported observables, check_validity
raises a CapabilityError naming that observable as unsupported: observable
membership is checked in the observables capability set independently of
the operations capability set. -/
theorem check_validity_rejects_observable_supported_as_gate
    (d : Device) (queue : List Operation) (o : Observable)
    (hq : ∀ op ∈ queue, op.name ∈ d.operations)
    (_hop : o.name ∈ d.operations) (hobs : o.name ∉ d.observables) :
    check_validity d queue [o] =
      .error (.capability ("Observable " ++ o.name ++ " not supported")) := by
  simp only [check_validity, checkOps_ok d queue hq]
  simp only [checkObs]
  rw [if_neg hobs]

/-- Witness for C1: a device supporting the gate PauliY but not the
observable PauliY rejects the observable PauliY. -/
theorem check_validity_rejects_observable_supported_as_gate_witness :
    check_validity
      { operations := ["PauliY", "RX"], observables := ["PauliZ"], measure := fun _ => 0 }
      [⟨"RX", [0]⟩]
      [⟨"PauliY", [0], ReturnType.expectation, none⟩] =
      .error (.capability ("Observable " ++ "PauliY" ++ " not supported")) :=
  check_validity_rejects_observable_supported_as_gate
    { operations := ["PauliY", "RX"], observables := ["PauliZ"], measure := fun _ => 0 }
    [⟨"RX", [0]⟩]
    ⟨"PauliY", [0], ReturnType.expectation, none⟩
    (by decide) (by decide) (by decide)

/-- C2: executing a queue containing an operation whose name is not in the
device operations set raises a CapabilityError whose message is the template
"Gate {name} not supported" (which contains the substring "not supported"
and names the offending gate), and no queue entry is executed: the applied
operations of the resulting state equal those of the incoming state. -/
theorem execute_unsupported_gate_rejected
    (d : Device) (s : DeviceState) (queue : List Operation) (obs : List Observable)
    (h : ∃ op ∈ queue, op.name ∉ d.operations) :
    ∃ g, g ∈ queue ∧ g.name ∉ d.operations ∧
      execute d s queue obs =
        (.error (.capability ("Gate " ++ g.name ++ " not supported")),
         { appliedOps := s.appliedOps, opQueue := none, obsQueue := none }) ∧
      (execute d s queue obs).2.appliedOps = s.appliedOps := by
  rcases checkOps_err d queue h with ⟨g, hg, hgn, he⟩
  have hv : check_validity d queue obs =
      .error (.capability ("Gate " ++ g.name ++ " not supported")) := by
    simp only [check_validity, he]
  refine ⟨g, hg, hgn, ?_, ?_⟩
  · simp only [execute, hv]
  · simp only [execute, hv]

/-- Witness for C2: a device supporting RX and CNOT rejects a queue holding
the gate RY with the CapabilityError naming RY, and applies nothing. -/
theorem execute_unsupported_gate_rejected_witness :
    execute
      { operations := ["RX", "CNOT"], observables := ["PauliZ"], measure := fun _ => 0 }
      { appliedOps := [], opQueue := none, obsQueue := none }
      [⟨"RY", [0]⟩]
      [⟨"PauliZ", [0], ReturnType.expectation, none⟩] =
      (.error (.capability ("Gate " ++ "RY" ++ " not supported")),
       { appliedOps := [], opQueue := none, obsQueue := none }) := by
  rcases execute_unsupported_gate_rejected
      { operations := ["RX", "CNOT"], observables := ["PauliZ"], measure := fun _ => 0 }
      { appliedOps := [], opQueue := none, obsQueue := none }
      [⟨"RY", [0]⟩]
      [⟨"PauliZ", [0], ReturnType.expectation, none⟩]
      ⟨⟨"RY", [0]⟩, by decide, by decide⟩ with ⟨g, hg, hgn, he, hs⟩
  have hgeq : g = (⟨"RY", [0]⟩ : Operation) := List.mem_singleton.mp hg
  subst hgeq
  exact he

/-- C3: reading op_queue or obs_queue outside an active execute call (no
context open) raises a ContextError rather than returning any data, and the
two messages are distinct: one identifies the operation queue, the other
the observable queue. -/
theorem queue_access_outside_context_errors (s : DeviceState)
    (hop : s.opQueue = none) (hobs : s.obsQueue = none) :
    op_queue s = .error (.context opQueueMessage) ∧
    obs_queue s = .error (.context obsQueueMessage) ∧
    opQueueMessage ≠ obsQueueMessage := by
  refine ⟨?_, ?_, by decide⟩
  · simp only [op_queue, hop]
  · simp only [obs_queue, hobs]

/-- Witness for C3 at the idle device state. -/
theorem queue_access_outside_context_errors_witness :
    op_queue { appliedOps := [], opQueue := none, obsQueue := none } =
      .error (.context opQueueMessage) ∧
    obs_queue { appliedOps := [], opQueue := none, obsQueue := none } =
      .error (.context obsQueueMessage) ∧
    opQueueMessage ≠ obsQueueMessage :=
  queue_access_outside_context_errors
    { appliedOps := [], opQueue := none, obsQueue := none } rfl rfl

/-- C4: when a validated execute call reaches an observable list containing
a sample-type observable lacking num_samples, execute raises an
ObservableConfigError whose message is the template "Number of samples not
specified for observable {name}" for such an observable; the absence never
receives a silent default. -/
theorem execute_sample_missing_num_samples
    (d : Device) (s : DeviceState) (queue : List Operation) (obs : List Observable)
    (hv : check_validity d queue obs = .ok ())
    (h : ∃ o ∈ obs, o.returnType = ReturnType.sample ∧ o.numSamples = none) :
    ∃ o, o ∈ obs ∧ o.returnType = ReturnType.sample ∧ o.numSamples = none ∧
      (execute d s queue obs).1 =
        .error (.observableConfig
          ("Number of samples not specified for observable " ++ o.name)) := by
  rcases resolveObservables_err d obs h with ⟨o, ho, h1, h2, he⟩
  exact ⟨o, ho, h1, h2, by simp only [execute, hv, he]⟩

/-- Witness for C4: a sample PauliZ observable with its num_samples
attribute missing is rejected with the ObservableConfigError. -/
theorem execute_sample_missing_num_samples_witness :
    (execute
      { operations := ["RX"], observables := ["PauliZ"], measure := fun _ => 0 }
      { appliedOps := [], opQueue := none, obsQueue := none }
      [⟨"RX", [0]⟩]
      [⟨"PauliZ", [0], ReturnType.sample, none⟩]).1 =
      .error (.observableConfig
        ("Number of samples not specified for observable " ++ "PauliZ")) := by
  rcases execute_sample_missing_num_samples
      { operations := ["RX"], observables := ["PauliZ"], measure := fun _ => 0 }
      { appliedOps := [], opQueue := none, obsQueue := none }
      [⟨"RX", [0]⟩]
      [⟨"PauliZ", [0], ReturnType.sample, none⟩]
      rfl
      ⟨⟨"PauliZ", [0], ReturnType.sample, none⟩, by decide, by decide, by decide⟩
    with ⟨o, ho, _, _, he⟩
  have hoeq : o = (⟨"PauliZ", [0], ReturnType.sample, none⟩ : Observable) :=
    List.mem_singleton.mp ho
  subst hoeq
  exact he

/-- C5: a valid execute call returns one backend result per observable, in
the observables input order, packed as an array (the result type is always a
list of numbers, never a bare scalar, so a one-observable call yields a
one-element array). -/
theorem execute_results_one_per_observable
    (d : Device) (s : DeviceState) (queue : List Operation) (obs : List Observable)
    (hv : check_validity d queue obs = .ok ())
    (hs : ∀ o ∈ obs, ¬(o.returnType = ReturnType.sample ∧ o.numSamples = none)) :
    (execute d s queue obs).1 = .ok (obs.map d.measure) ∧
    (obs.map d.measure).length = obs.length := by
  have hr := resolveObservables_ok d obs hs
  exact ⟨by simp only [execute, hv, hr], by simp⟩

/-- Witness for C5: a single-observable execute call returns the one-element
array holding the backend result, not a bare scalar. -/
theorem execute_results_one_per_observable_witness :
    (execute
      { operations := ["RX", "CNOT"], observables := ["PauliZ"], measure := fun _ => 7 }
      { appliedOps := [], opQueue := none, obsQueue := none }
      [⟨"RX", [0]⟩, ⟨"CNOT", [0, 1]⟩]
      [⟨"PauliZ", [0], ReturnType.expectation, none⟩]).1 = .ok [7] ∧
    ([(⟨"PauliZ", [0], ReturnType.expectation, none⟩ : Observable)].map
      (fun _ => (7 : Int))).length = 1 :=
  execute_results_one_per_observable
    { operations := ["RX", "CNOT"], observables := ["PauliZ"], measure := fun _ => 7 }
    { appliedOps := [], opQueue := none, obsQueue := none }
    [⟨"RX", [0]⟩, ⟨"CNOT", [0, 1]⟩]
    [⟨"PauliZ", [0], ReturnType.expectation, none⟩]
    rfl (by decide)

end PennyLane

namespace PennyLane

/-- C6: device construction fails before any queue exists (the construction
interface involves no queue at all): an unknown name raises a
ConstructionError whose message is "Device does not exist", and a resolved
backend declaring compatibility with an older host-framework version than
currently running raises the API-version ConstructionError at construction
time. -/
theorem construct_unknown_or_outdated
    (registry : List (String × Plugin)) (hostVersion : Nat) (name : String) :
    (lookupPlugin registry name = none →
      construct registry hostVersion name =
        .error (.construction "Device does not exist")) ∧
    (∀ p, lookupPlugin registry name = some p → p.apiVersion < hostVersion →
      construct registry hostVersion name =
        .error (.construction (apiVersionMessage p.apiVersion))) := by
  constructor
  · intro h
    simp only [construct, h]
  · intro p hp hlt
    simp only [construct, hp]
    rw [if_pos hlt]

/-- Witness for C6: an empty registry rejects the name None with "Device
does not exist", and a plugin declaring API version 1 under host version 4
raises the API-version error. -/
theorem construct_unknown_or_outdated_witness :
    construct [] 4 "None" = .error (.construction "Device does not exist") ∧
    construct
      [("default.qubit",
        { apiVersion := 1,
          dev := { operations := ["RX"], observables := ["PauliZ"], measure := fun _ => 0 } })]
      4 "default.qubit" =
      .error (.construction (apiVersionMessage 1)) :=
  ⟨(construct_unknown_or_outdated [] 4 "None").1 rfl,
   (construct_unknown_or_outdated
      [("default.qubit",
        { apiVersion := 1,
          dev := { operations := ["RX"], observables := ["PauliZ"], measure := fun _ => 0 } })]
      4 "default.qubit").2
     { apiVersion := 1,
       dev := { operations := ["RX"], observables := ["PauliZ"], measure := fun _ => 0 } }
     rfl (by decide)⟩

/-- C7: supports_operation accepts a name string or an Operation class and
returns true exactly for names in the operations capability set (true for
every member, false for every non-member); supports_observable behaves
likewise over the observables capability set. -/
theorem supports_membership (d : Device) (s : String) (n : String) (b : Bool) :
    ((supports_operation d (.str s) = .ok true) ↔ s ∈ d.operations) ∧
    ((supports_operation d (.str s) = .ok false) ↔ s ∉ d.operations) ∧
    ((supports_operation d (.cls n b) = .ok true) ↔ n ∈ d.operations) ∧
    ((supports_observable d (.str s) = .ok true) ↔ s ∈ d.observables) ∧
    ((supports_observable d (.str s) = .ok false) ↔ s ∉ d.observables) ∧
    (b = true → ((supports_observable d (.cls n b) = .ok true) ↔ n ∈ d.observables)) := by
  refine ⟨?_, ?_, ?_, ?_, ?_, ?_⟩
  · simp [supports_operation]
  · simp [supports_operation]
  · simp [supports_operation]
  · simp [supports_observable]
  · simp [supports_observable]
  · rintro rfl
    simp [supports_observable]

/-- Witness for C7: a device supporting the gate PauliX but not the
observable CNOT answers membership queries for strings and classes. -/
theorem supports_membership_witness :
    supports_operation
      { operations := ["PauliX", "CNOT"], observables := ["PauliX"], measure := fun _ => 0 }
      (.str "PauliX") = .ok true ∧
    supports_operation
      { operations := ["PauliX", "CNOT"], observables := ["PauliX"], measure := fun _ => 0 }
      (.str "RY") = .ok false ∧
    supports_observable
      { operations := ["PauliX", "CNOT"], observables := ["PauliX"], measure := fun _ => 0 }
      (.cls "PauliX" true) = .ok true :=
  ⟨(supports_membership
      { operations := ["PauliX", "CNOT"], observables := ["PauliX"], measure := fun _ => 0 }
      "PauliX" "PauliX" true).1.mpr (by decide),
   (supports_membership
      { operations := ["PauliX", "CNOT"], observables := ["PauliX"], measure := fun _ => 0 }
      "RY" "PauliX" true).2.1.mpr (by decide),
   ((supports_membership
      { operations := ["PauliX", "CNOT"], observables := ["PauliX"], measure := fun _ => 0 }
      "PauliX" "PauliX" true).2.2.2.2.2 rfl).mpr (by decide)⟩

/-- C8: an argument that is neither a string nor a recognized class of the
appropriate kind makes supports_operation and supports_observable fail with
an ArgumentTypeError whose message states the accepted argument kinds; in
particular supports_observable rejects an Operation class that is not an
Observable with the same message. -/
theorem supports_argument_type_error (d : Device) (n : String) :
    supports_operation d .other = .error (.argumentType operationArgMessage) ∧
    supports_observable d .other = .error (.argumentType observableArgMessage) ∧
    supports_observable d (.cls n false) =
      .error (.argumentType observableArgMessage) ∧
    operationArgMessage =
      "The given operation must either be a pennylane.Operation class or a string." ∧
    observableArgMessage =
      "The given operation must either be a pennylane.Observable class or a string." :=
  ⟨rfl, rfl, rfl, rfl, rfl⟩

end PennyLane

namespace TorchQnn

/-- C9: the TorchLayer constructor validates the qnode signature against the
weight_shapes keys and accepts exactly when all checks pass; a signature
lacking the argument inputs, variable positional arguments, variable keyword
arguments, or a default on an argument other than inputs yields the
corresponding TypeError, while inputs appearing among the weight_shapes keys
or the weight_shapes keys plus inputs differing from the signature argument
names yields the corresponding ValueError, each condition taken at its
position in the source check order. -/
theorem torchLayer_init_signature_validation (sig : QNodeSignature) (ws : List String) :
    (torchLayerInitCheck sig ws = .ok () ↔
      (inputArg ∈ sig.argNames ∧ inputArg ∉ ws ∧
       sameNameSet (inputArg :: ws) sig.argNames ∧
       sig.varPos = false ∧ sig.varKeyword = false ∧
       ∀ x ∈ sig.argsWithDefault, x = inputArg)) ∧
    (inputArg ∉ sig.argNames →
      torchLayerInitCheck sig ws = .error (.typeError missingInputsMessage)) ∧
    (inputArg ∈ sig.argNames → inputArg ∈ ws →
      torchLayerInitCheck sig ws = .error (.valueError inputsInWeightShapesMessage)) ∧
    (inputArg ∈ sig.argNames → inputArg ∉ ws →
      ¬ sameNameSet (inputArg :: ws) sig.argNames →
      torchLayerInitCheck sig ws = .error (.valueError shapeMismatchMessage)) ∧
    (inputArg ∈ sig.argNames → inputArg ∉ ws →
      sameNameSet (inputArg :: ws) sig.argNames → sig.varPos = true →
      torchLayerInitCheck sig ws = .error (.typeError varPosMessage)) ∧
    (inputArg ∈ sig.argNames → inputArg ∉ ws →
      sameNameSet (inputArg :: ws) sig.argNames → sig.varPos = false →
      sig.varKeyword = true →
      torchLayerInitCheck sig ws = .error (.typeError varKeywordMessage)) ∧
    (inputArg ∈ sig.argNames → inputArg ∉ ws →
      sameNameSet (inputArg :: ws) sig.argNames → sig.varPos = false →
      sig.varKeyword = false → ¬ (∀ x ∈ sig.argsWithDefault, x = inputArg) →
      torchLayerInitCheck sig ws = .error (.typeError defaultsMessage)) := by
  unfold torchLayerInitCheck
  split_ifs with h1 h2 h3 h4 h5 h6 <;> simp_all
  exact h6

/-- Witness for C9: a signature with arguments inputs and w1, where only
inputs has a default, together with the weight shape key w1, is accepted;
a signature whose only argument is data is rejected with the TypeError
demanding an inputs argument. -/
theorem torchLayer_init_signature_validation_witness :
    torchLayerInitCheck
      { argNames := ["inputs", "w1"], argsWithDefault := ["inputs"],
        varPos := false, varKeyword := false } ["w1"] = .ok () ∧
    torchLayerInitCheck
      { argNames := ["data"], argsWithDefault := [],
        varPos := false, varKeyword := false } [] =
      .error (.typeError missingInputsMessage) :=
  ⟨(torchLayer_init_signature_validation
      { argNames := ["inputs", "w1"], argsWithDefault := ["inputs"],
        varPos := false, varKeyword := false } ["w1"]).1.mpr (by decide),
   (torchLayer_init_signature_validation
      { argNames := ["data"], argsWithDefault := [],
        varPos := false, varKeyword := false } []).2.1 (by decide)⟩

/-- C10: the claim fails on the code. The defining expression of the
module-level default initializer on line 25 of pennylane/qnn/torch.py
references the name np, but no import of that module binds np at module
scope, so evaluating the module (and hence constructing a TorchLayer with
the default init_method) fails with a name-resolution error. -/
theorem uniform_default_references_unbound_np :
    "np" ∈ uniformDefReferencedNames ∧ "np" ∉ torchModuleBoundNames := by
  decide

end TorchQnn
